import Mathlib

/-!
Shallow embedding of the chat domain-gating engine of `src/app/routers/chat.py`.

Text is modelled as Lean `String` / `List Char`.  Python-specific primitives
(`str.strip`, `str.lower`, `str.split`, `in`-substring tests, and the regex
fragments actually occurring in the source: word-bounded literals, the single
prefix pattern, and the token-suffix patterns) are given explicit executable
definitions below.  All lexicons are transcribed verbatim from the source,
including order and duplicate entries.
-/

/-- The whitespace characters stripped by Python `str.strip()` / split by
`str.split()` (the ASCII whitespace set; the inputs considered here contain no
exotic Unicode spaces). -/
def isPySpace (c : Char) : Bool :=
  c == ' ' || c == '\t' || c == '\n' || c == '\r' || c == '\x0b' || c == '\x0c'

/-- The accented letters occurring in the French lexicon entries; Python regex
`\w` counts them as word characters. -/
def accentChars : List Char :=
  ['à', 'â', 'ç', 'è', 'é', 'ê', 'ë', 'î', 'ï', 'ô', 'û', 'ù', 'œ',
   'À', 'Â', 'Ç', 'È', 'É', 'Ê', 'Ë', 'Î', 'Ï', 'Ô', 'Û', 'Ù', 'Œ']

/-- Python regex `\w` (word character), restricted to the alphabet the
source lexicons use: ASCII alphanumerics, underscore, accented letters. -/
def isWordChar (c : Char) : Bool :=
  c.isAlphanum || c == '_' || accentChars.contains c

/-- Uppercase-to-lowercase table for Python `str.lower()` over the alphabet
used here (ASCII letters plus the accented letters of the lexicons). -/
def lowerPairs : List (Char × Char) :=
  [('A', 'a'), ('B', 'b'), ('C', 'c'), ('D', 'd'), ('E', 'e'), ('F', 'f'),
   ('G', 'g'), ('H', 'h'), ('I', 'i'), ('J', 'j'), ('K', 'k'), ('L', 'l'),
   ('M', 'm'), ('N', 'n'), ('O', 'o'), ('P', 'p'), ('Q', 'q'), ('R', 'r'),
   ('S', 's'), ('T', 't'), ('U', 'u'), ('V', 'v'), ('W', 'w'), ('X', 'x'),
   ('Y', 'y'), ('Z', 'z'),
   ('À', 'à'), ('Â', 'â'), ('Ç', 'ç'), ('È', 'è'), ('É', 'é'), ('Ê', 'ê'),
   ('Ë', 'ë'), ('Î', 'î'), ('Ï', 'ï'), ('Ô', 'ô'), ('Û', 'û'), ('Ù', 'ù'),
   ('Œ', 'œ')]

/-- Python `str.lower()` on a single character. -/
def lowerChar (c : Char) : Char :=
  match lowerPairs.find? (fun p => p.1 == c) with
  | some p => p.2
  | none => c

/-- Python `str.lower()`. -/
def pyLower (l : List Char) : List Char := l.map lowerChar

/-- Python `str.strip()`: drop leading and trailing whitespace. -/
def pyStrip (l : List Char) : List Char :=
  ((l.dropWhile isPySpace).reverse.dropWhile isPySpace).reverse

/-- Python `str.split()` (no separator argument): maximal runs of
non-whitespace characters, empties discarded.  `acc` accumulates the current
token in reverse. -/
def pySplitAux (acc : List Char) : List Char → List (List Char)
  | [] => if acc.isEmpty then [] else [acc.reverse]
  | c :: rest =>
    if isPySpace c then
      if acc.isEmpty then pySplitAux [] rest
      else acc.reverse :: pySplitAux [] rest
    else pySplitAux (c :: acc) rest

/-- Python `str.split()`. -/
def pySplit (l : List Char) : List (List Char) := pySplitAux [] l

/-- `re.findall(r"\w+", s)` counts maximal runs of word characters;
`prev` records whether the previous character was a word character. -/
def countWordsAux (prev : Bool) : List Char → Nat
  | [] => 0
  | c :: rest =>
    if isWordChar c then (if prev then 0 else 1) + countWordsAux true rest
    else countWordsAux false rest

/-- Number of maximal word-character runs, i.e. `len(re.findall(r"\w+", s))`. -/
def countWords (l : List Char) : Nat := countWordsAux false l

/-- `needle` is a prefix of `hay` (by character equality). -/
def startsWith : List Char → List Char → Bool
  | [], _ => true
  | _ :: _, [] => false
  | c :: cs, d :: ds => c == d && startsWith cs ds

/-- Python substring test `needle in hay`. -/
def isSubstring (needle : List Char) : List Char → Bool
  | [] => startsWith needle []
  | c :: rest => startsWith needle (c :: rest) || isSubstring needle rest

/-- `suffix` is a suffix of `l`. -/
def endsWith (suffix l : List Char) : Bool :=
  startsWith suffix.reverse l.reverse

/-- After a match of `t` at the head of `hay`, the following character (if
any) must not be a word character: the regex `\b` after a term ending in a
word character. -/
def boundaryAfter (t hay : List Char) : Bool :=
  match hay.drop t.length with
  | [] => true
  | c :: _ => !isWordChar c

/-- Occurrence of the word-bounded literal `\b t \b` somewhere in `hay`;
`prev` records whether the character before the current position is a word
character (all lexicon terms begin and end with word characters, so `\b`
amounts to the neighbouring character not being a word character). -/
def wholeWordAux (t : List Char) (prev : Bool) (hay : List Char) : Bool :=
  (!prev && startsWith t hay && boundaryAfter t hay) ||
    match hay with
    | [] => false
    | c :: rest => wholeWordAux t (isWordChar c) rest

/-- `re.search(rf"\b{t}\b", hay)` for a literal term `t`. -/
def wholeWord (t hay : List Char) : Bool := wholeWordAux t false hay

/-- Occurrence of `\b t \w*`: the literal `t` at a word-start position, with
no constraint after it. -/
def wordStartAux (t : List Char) (prev : Bool) (hay : List Char) : Bool :=
  (!prev && startsWith t hay) ||
    match hay with
    | [] => false
    | c :: rest => wordStartAux t (isWordChar c) rest

/-- `re.search(rf"\b{t}\w*", hay)` for a literal prefix `t`. -/
def wordStartMatch (t hay : List Char) : Bool := wordStartAux t false hay

/-- Maximal runs of word characters (the tokens the regex `\b\w+suffix\b`
ranges over).  `acc` accumulates the current token in reverse. -/
def wordTokensAux (acc : List Char) : List Char → List (List Char)
  | [] => if acc.isEmpty then [] else [acc.reverse]
  | c :: rest =>
    if isWordChar c then wordTokensAux (c :: acc) rest
    else if acc.isEmpty then wordTokensAux [] rest
    else acc.reverse :: wordTokensAux [] rest

/-- Maximal word-character runs of `l`. -/
def wordTokens (l : List Char) : List (List Char) := wordTokensAux [] l

/-- The four conversational modes (`chat_type` literal in the request model). -/
inductive ChatType where
  | symptom
  | qa
  | food
  | explore
  deriving DecidableEq

/-- One entry of the `CHAT_VALIDATIONS` dict: optional minimum character
length, optional minimum word count, and the rejection message. -/
structure ValidationRule where
  min_length : Option Nat := none
  min_words : Option Nat := none
  error : String

/-- The `CHAT_VALIDATIONS` configuration table. -/
def CHAT_VALIDATIONS : ChatType → ValidationRule
  | .symptom => { min_words := some 3,
                  error := "❌ Please provide at least 3 words describing your symptoms" }
  | .explore => { min_length := some 3,
                  error := "🔍 Please provide at least 5 characters for your query" }
  | .food => { min_words := some 1,
               error := "🍎 Please enter a food name" }
  | .qa => { min_length := some 5,
             error := "❓ Please provide at least 5 characters for your question" }

/-- The regex shapes occurring in the source pattern lists:
`word t` is the word-bounded literal `\b t \b`; `wordStart t` is the prefix
pattern `\b t \w*` (only `\bmédic\w*`); `suffixTok t` is the token-suffix
pattern `\b\w+ t \b` (the generic food patterns). -/
inductive Pat where
  | word (t : String)
  | wordStart (t : String)
  | suffixTok (t : String)

/-- Whether a single pattern matches the (already lowercased) text. -/
def matchPat (lp : List Char) : Pat → Bool
  | .word t => wholeWord t.data lp
  | .wordStart t => wordStartMatch t.data lp
  | .suffixTok t =>
    (wordTokens lp).any fun tok =>
      decide (t.data.length < tok.length) && endsWith t.data tok

/-- The word-bounded literals of `MEDICAL_PATTERNS` (each source entry
`r"\bX\b"`), in source order; the one prefix pattern `r"\bmédic\w*"` is added
separately in `MEDICAL_PATTERNS` below. -/
def MEDICAL_WORD_TERMS : List String :=
  ["medical", "health", "santé", "illness",
   "maladie", "condition", "symptom", "symptôme", "douleur",
   "pain", "fièvre", "fever", "toux", "cough", "nausée",
   "nausea", "vertige", "dizziness", "fatigue", "tiredness",
   "vomissement", "vomit", "cardiaque", "cardiac", "cœur",
   "heart", "respiratoire", "respiratory", "poumon", "lung",
   "digestif", "digestive", "estomac", "stomach", "foie",
   "liver", "rein", "kidney", "muscle", "muscular", "os",
   "bone", "peau", "skin", "yeux", "eyes", "oreille",
   "ear", "nez", "nose", "gorge", "throat", "dent",
   "tooth", "cerveau", "brain", "colonne", "spine", "tête",
   "head", "cancer", "diabète", "diabetes", "asthme",
   "asthma", "hypertension", "cholestérol", "cholesterol",
   "dépression", "depression", "anxiété", "anxiety", "arthrite",
   "arthritis", "alzheimer", "parkinson", "épilepsie", "epilepsy",
   "infection", "inflammation", "blessure", "injury", "fracture",
   "brûlure", "burn", "allergie", "allergy", "éruption",
   "rush", "médicament", "drug", "traitement", "treatment",
   "thérapie", "therapy", "vaccin", "vaccine", "chirurgie",
   "surgery", "diagnostic", "prévention", "prevention",
   "rétablissement", "recovery", "réhabilitation", "rehab",
   "médecin", "doctor", "infirmier", "nurse", "hôpital",
   "hospital", "clinique", "clinic", "urgence", "emergency",
   "généraliste", "gp", "spécialiste", "specialist", "dermatologue",
   "dermatologist", "cardiologue", "cardiologist", "neurologue",
   "neurologist", "pédiatre", "pediatrician", "gynécologue",
   "gynecologist", "psychiatre", "psychiatrist"]

/-- `MEDICAL_PATTERNS`: the prefix pattern `r"\bmédic\w*"` followed by the
word-bounded literals. -/
def MEDICAL_PATTERNS : List Pat :=
  Pat.wordStart "médic" :: MEDICAL_WORD_TERMS.map Pat.word

/-- The word-bounded literals of `GENERIC_SYMPTOM_PATTERNS`, in source order.
Note: the source entry r"\burning\b" (intended "burning") starts with the
two-character escape backslash-b, which consumes the leading letter b, so the
compiled alternative matches the word "urning"; it is transcribed as such. -/
def GENERIC_SYMPTOM_TERMS : List String :=
  ["ache", "pain", "sick", "nauseous", "throbbing",
   "sharp", "dull", "urning", "tenderness", "sensitivity",
   "discomfort", "pressure", "tingling", "pins and needles",
   "hot flash", "cold sweat", "night sweat", "loss of appetite",
   "increased thirst", "frequent urination", "difficulty swallowing",
   "joint stiffness", "limited mobility", "difficulty breathing",
   "chest tightness", "racing pain", "stabbing pain", "aching pain",
   "persistent cough", "blood in stool", "blood in urine"]

/-- `GENERIC_SYMPTOM_PATTERNS` as patterns. -/
def GENERIC_SYMPTOM_PATTERNS : List Pat := GENERIC_SYMPTOM_TERMS.map Pat.word

/-- The word-bounded literals of `FOOD_PATTERNS` (each source entry
`r"\bX\b"`), in source order. -/
def FOOD_WORD_TERMS : List String :=
  ["food", "aliment", "nourriture", "nutrition", "nutritif",
   "nutritional", "valeur nutritive", "composition", "ingrédient",
   "ingredient", "régime", "diet", "calorie", "meal", "repas",
   "cuisine", "cooking", "recette", "recipe", "manger", "eat",
   "consommer", "consume", "fruit", "fruits", "légume",
   "vegetable", "viande", "meat", "poisson", "fish", "produit laitier",
   "dairy", "céréale", "grain", "légumineuse", "legume", "noix",
   "nut", "graine", "seed", "protéine", "protein", "glucide",
   "carb", "carbohydrate", "lipide", "fat", "vitamine", "vitamin",
   "minéral", "mineral", "fibre", "fiber", "épice", "spice",
   "herbe", "herb", "sucre", "sugar", "sel", "salt", "huile",
   "oil", "beurre", "butter", "apple", "pomme", "banana", "banane",
   "orange", "tomato", "tomate", "potato", "patate", "riz", "rice",
   "pâtes", "pasta", "pain", "bread", "fromage", "cheese", "lait",
   "milk", "œuf", "egg", "yaourt", "yogurt", "boisson", "drink",
   "eau", "water", "café", "coffee", "thé", "tea", "allergie alimentaire",
   "food allergy", "intolérance", "intolerance", "bienfait", "benefit", "sain",
   "healthy"]

/-- `FOOD_PATTERNS` as patterns. -/
def FOOD_PATTERNS : List Pat := FOOD_WORD_TERMS.map Pat.word

/-- The suffixes of `GENERIC_FOOD_PATTERNS` (each source entry
`r"\b\w+X\b"`), in source order. -/
def GENERIC_FOOD_SUFFIXES : List String :=
  ["food", "nut", "seed", "fish", "fruit", "berry"]

/-- `GENERIC_FOOD_PATTERNS` as patterns. -/
def GENERIC_FOOD_PATTERNS : List Pat := GENERIC_FOOD_SUFFIXES.map Pat.suffixTok

/-- `ALL_FOOD_PATTERNS = FOOD_PATTERNS + GENERIC_FOOD_PATTERNS`. -/
def ALL_FOOD_PATTERNS : List Pat := FOOD_PATTERNS ++ GENERIC_FOOD_PATTERNS

/-- `ALL_SYMPTOM_PATTERNS = MEDICAL_PATTERNS + GENERIC_SYMPTOM_PATTERNS`. -/
def ALL_SYMPTOM_PATTERNS : List Pat := MEDICAL_PATTERNS ++ GENERIC_SYMPTOM_PATTERNS

/-- `MEDICAL_REGEX.search(text)`: the alternation is compiled with
`re.IGNORECASE` and every literal is lowercase, so it is modelled as matching
any pattern against the lowercased text. -/
def MEDICAL_REGEX_search (text : String) : Bool :=
  ALL_SYMPTOM_PATTERNS.any (matchPat (pyLower text.data))

/-- `FOOD_REGEX.search(text)`, modelled the same way. -/
def FOOD_REGEX_search (text : String) : Bool :=
  ALL_FOOD_PATTERNS.any (matchPat (pyLower text.data))

/-- `SYMPTOM_WORDS`, transcribed in source order with duplicates kept: the
English section is followed by a French section, and several entries
("migraine", "fatigue", "congestion", "constipation", "indigestion",
"urination", "vision", "coordination", "concentration", "confusion",
"agitation") occur in both. -/
def SYMPTOM_WORDS : List String :=
  ["headache", "migraine", "dizziness", "nausea", "vomit", "fatigue", "fever",
   "chills", "cough", "pain", "cramps", "rash", "itch", "swelling", "numbness",
   "weakness", "tiredness", "sore", "stiff", "shortness", "breath", "wheezing",
   "diarrhea", "constipation", "bleeding", "discharge", "palpitations", "anxiety",
   "depression", "insomnia", "drowsiness", "shivering", "shaking", "tremors",
   "congestion", "sneezing", "runny nose", "sore throat", "heartburn", "indigestion",
   "bloating", "gas", "urination", "dehydration", "appetite", "hunger", "thirst",
   "weight", "vision", "hearing", "taste", "smell", "balance", "coordination",
   "memory", "concentration", "confusion", "mood", "irritability", "agitation",
   "migraine", "vertige", "nausée", "vomissement", "fatigue", "fièvre", "frissons",
   "toux", "douleur", "crampe", "éruption", "démangeaison", "gonflement", "engourdissement",
   "faiblesse", "raideur", "essoufflement", "respiration", "sifflement", "diarrhée",
   "constipation", "saignement", "écoulement", "palpitation", "anxiété", "dépression",
   "insomnie", "somnolence", "tremblement", "frisson", "congestion", "éternuement",
   "nez qui coule", "mal de gorge", "brûlure d\x27estomac", "indigestion", "ballonnement",
   "gaz", "urination", "déshydratation", "appétit", "faim", "soif", "poids", "vision",
   "audition", "goût", "odorat", "équilibre", "coordination", "mémoire", "concentration",
   "confusion", "humeur", "irritabilité", "agitation"]

/-- `CONTEXTUAL_PHRASES`, transcribed in source order.  The entries are kept
in their original mixed case: they are substring-tested against the
lowercased prompt, so the ones containing an uppercase I cannot match. -/
def CONTEXTUAL_PHRASES : List String :=
  ["I feel", "I am experiencing", "I have been having", "suffering from",
   "bothering me", "woke up with", "started feeling", "having trouble with",
   "my symptoms are", "I\x27ve noticed", "recently developed", "for the past",
   "je ressens", "j\x27ai des", "je souffre de", "je me plains de", "depuis",
   "mes symptômes", "j\x27ai remarqué", "j\x27ai développé", "au cours des",
   "j\x27ai mal au", "j\x27ai mal à la", "j\x27ai des difficultés à", "je ne peux plus"]

/-- `BODY_PARTS`, transcribed in source order (English then French). -/
def BODY_PARTS : List String :=
  ["head", "neck", "back", "chest", "stomach", "abdomen", "arm", "leg", "hand", "foot",
   "eye", "ear", "nose", "throat", "skin", "joint", "muscle", "bone", "heart", "lung",
   "liver", "kidney", "bladder", "thigh", "knee", "ankle", "shoulder", "elbow", "wrist",
   "finger", "toe", "jaw", "hip", "spine", "pelvis", "groin", "buttocks", "calf", "shin",
   "forearm", "bicep", "tricep", "palm", "sole", "heel", "toenail", "fingernail", "scalp",
   "face", "forehead", "temple", "cheek", "chin", "lip", "tongue", "gum", "tooth", "uvula",
   "tonsil", "esophagus", "diaphragm", "rib", "collarbone", "shoulder blade", "tailbone",
   "vein", "artery", "nerve", "tendon", "ligament",
   "tête", "cou", "dos", "poitrine", "ventre", "abdomen", "bras", "jambe", "main", "pied",
   "œil", "oreille", "nez", "gorge", "peau", "articulation", "muscle", "os", "cœur", "poumon",
   "foie", "rein", "vessie", "cuisse", "genou", "cheville", "épaule", "coude", "poignet",
   "doigt", "orteil", "mâchoire", "hanche", "colonne vertébrale", "bassin", "aine", "fesse",
   "mollet", "tibia", "avant-bras", "biceps", "triceps", "paume", "plante du pied", "talon",
   "ongle d\x27orteil", "ongle", "cuir chevelu", "visage", "front", "tempe", "joue", "menton",
   "lèvre", "langue", "gencive", "dent", "luette", "amygdale", "œsophage", "diaphragme",
   "côte", "clavicule", "omoplate", "coccyx", "veine", "artère", "nerf", "tendon", "ligament"]

/-- The inline possessive/first-person marker list of the body-part
heuristic, kept in its original case ("I\x27ve" contains an uppercase I and is
substring-tested against the lowercased prompt, so it can never match). -/
def POSSESSIVE_MARKERS : List String :=
  ["my", "I\x27ve", "j\x27ai mal au", "ma"]

/-- First half of `FOOD_NAME_LIST` (source lines 177-190), in order. -/
def FOOD_NAME_LIST_A : List String :=
  ["scallop", "pétoncle", "almond", "amande", "quinoa", "avocado", "avocat",
   "salmon", "saumon", "tuna", "thon", "shrimp", "crevette", "lobster", "homard",
   "oyster", "huître", "mussel", "moule", "octopus", "poulpe", "squid", "calamar",
   "beef", "bœuf", "chicken", "poulet", "pork", "porc", "lamb", "agneau", "duck", "canard",
   "turkey", "dinde", "veal", "veau", "bacon", "ham", "jambon", "sausage", "saucisse",
   "rice", "riz", "pasta", "pâtes", "noodle", "nouille", "bread", "pain", "baguette",
   "croissant", "cheese", "fromage", "yogurt", "yaourt", "milk", "lait", "cream", "crème",
   "butter", "beurre", "egg", "œuf", "tofu", "tempeh", "seitan", "wheat", "blé", "rye", "seigle",
   "oat", "avoine", "barley", "orge", "corn", "maïs", "lentil", "lentille", "bean", "haricot",
   "pea", "pois", "chickpea", "pois chiche", "soy", "soja", "nut", "noix", "peanut", "cacahuète",
   "walnut", "noix", "hazelnut", "noisette", "pistachio", "pistache", "cashew", "noix de cajou",
   "pecan", "pécan", "macadamia", "coconut", "noix de coco", "pineapple", "ananas", "mango", "mangue",
   "papaya", "papaye", "kiwi", "melon", "watermelon", "pastèque", "grape", "raisin", "lemon", "citron",
   "lime", "citron vert", "orange", "tangerine", "mandarine", "peach", "pêche", "plum", "prune"]

/-- Second half of `FOOD_NAME_LIST` (source lines 191-204), in order. -/
def FOOD_NAME_LIST_B : List String :=
  ["apricot", "abricot", "cherry", "cerise", "strawberry", "fraise", "raspberry", "framboise",
   "blueberry", "myrtille", "blackberry", "mûre", "cranberry", "canneberge", "pomegranate", "grenade",
   "fig", "figue", "date", "datte", "olive", "artichoke", "artichaut", "asparagus", "asperge",
   "broccoli", "brocoli", "cabbage", "chou", "carrot", "carotte", "celery", "céleri", "cucumber", "concombre",
   "eggplant", "aubergine", "garlic", "ail", "ginger", "gingembre", "onion", "oignon", "pepper", "poivron",
   "potato", "pomme de terre", "pumpkin", "citrouille", "spinach", "épinard", "tomato", "tomate", "zucchini",
   "courgette", "lettuce", "laitue", "mushroom", "champignon", "truffle", "truffe", "basil", "basilic",
   "thyme", "thym", "rosemary", "romarin", "parsley", "persil", "coriander", "coriandre", "mint", "menthe",
   "oregano", "origan", "sage", "sauge", "dill", "aneth", "chive", "ciboulette", "vanilla", "vanille",
   "cinnamon", "cannelle", "nutmeg", "noix de muscade", "clove", "clou de girofle", "saffron", "safran",
   "turmeric", "curcuma", "cumin", "paprika", "chili", "piment", "honey", "miel", "maple", "érable",
   "sugar", "sucre", "salt", "sel", "pepper", "poivre", "vinegar", "vinaigre", "oil", "huile",
   "soy sauce", "sauce soja", "mustard", "moutarde", "ketchup", "mayonnaise", "salsa", "guacamole"]

/-- `FOOD_NAME_LIST` (split in two above only to keep list literals small). -/
def FOOD_NAME_LIST : List String := FOOD_NAME_LIST_A ++ FOOD_NAME_LIST_B

/-- The first guard of `validate_prompt`:
`"min_length" in rules and len(prompt) < rules["min_length"]`. -/
def belowMinLength (prompt : List Char) (rules : ValidationRule) : Bool :=
  match rules.min_length with
  | some m => decide (prompt.length < m)
  | none => false

/-- The second guard of `validate_prompt`:
`"min_words" in rules and len(re.findall(r"\w+", prompt)) < rules["min_words"]`. -/
def belowMinWords (prompt : List Char) (rules : ValidationRule) : Bool :=
  match rules.min_words with
  | some m => decide (countWords prompt < m)
  | none => false

/-- `validate_prompt(prompt, rules)`. -/
def validate_prompt (prompt : String) (rules : ValidationRule) : Bool :=
  if belowMinLength prompt.data rules then false
  else if belowMinWords prompt.data rules then false
  else true

/-- `contains_food_domain(prompt)`: regex patterns, then substring test
against the food-name list on the lowercased prompt, then the bare
single-token heuristic. -/
def contains_food_domain (prompt : String) : Bool :=
  if FOOD_REGEX_search prompt then true
  else if FOOD_NAME_LIST.any (fun food => isSubstring food.data (pyLower prompt.data)) then true
  else if (pySplit prompt.data).length = 1 then true
  else false

/-- The symptom-word counting loop of `contains_symptom_domain`: walk the
`SYMPTOM_WORDS` list (duplicates included), incrementing `word_count` on each
whole-word hit and returning true as soon as it reaches 2. -/
def symptomLoop (word_count : Nat) (ws : List String) (prompt_lower : List Char) : Bool :=
  match ws with
  | [] => false
  | w :: rest =>
    if wholeWord w.data prompt_lower then
      if word_count + 1 ≥ 2 then true
      else symptomLoop (word_count + 1) rest prompt_lower
    else symptomLoop word_count rest prompt_lower

/-- `contains_symptom_domain(prompt)`: (1) medical regex on the lowercased
prompt, (2) at-least-two symptom-word hits, (3) contextual phrase substring,
(4) possessive marker and body part both as substrings. -/
def contains_symptom_domain (prompt : String) : Bool :=
  let prompt_lower := pyLower prompt.data
  if MEDICAL_REGEX_search ⟨prompt_lower⟩ then true
  else if symptomLoop 0 SYMPTOM_WORDS prompt_lower then true
  else if CONTEXTUAL_PHRASES.any (fun phrase => isSubstring phrase.data prompt_lower) then true
  else if POSSESSIVE_MARKERS.any (fun m => isSubstring m.data prompt_lower) &&
          BODY_PARTS.any (fun part => isSubstring part.data prompt_lower) then true
  else false

/-- The advisory allow-list test of the symptom output gate:
`any(keyword in reply.lower() for keyword in [...])`. -/
def advisoryHit (reply : String) : Bool :=
  ["advice", "recommend", "suggest", "doctor", "medical attention"].any
    fun k => isSubstring k.data (pyLower reply.data)

/-- The nutrition allow-list test of the food output gate. -/
def nutritionHit (reply : String) : Bool :=
  ["nutrition", "calories", "vitamin", "mineral", "protein"].any
    fun k => isSubstring k.data (pyLower reply.data)

/-- Result of one request through `chat_handler`: `reject` is a response
produced before the dispatch to the language-model client (structural or
input-domain rejection); `complete` is a response produced after dispatch. -/
inductive Outcome where
  | reject (msg : String)
  | complete (msg : String)
  deriving DecidableEq

/-- The input domain-validation block (source lines 286-301): returns the
chat-type-specific rejection message when its predicate fails, nothing when
the prompt may be dispatched (`qa` has no input gate). -/
def domainGate : ChatType → String → Option String
  | .explore, prompt =>
    if MEDICAL_REGEX_search prompt then none
    else some "🩺 Please ask a health-related question"
  | .symptom, prompt =>
    if contains_symptom_domain prompt then none
    else some "🤒 Please describe your symptoms in more detail. Examples: \x27headache and fever\x27, \x27dizziness after standing up\x27"
  | .food, prompt =>
    if contains_food_domain prompt then none
    else some "🍏 Please ask about food or nutrition"
  | .qa, _ => none

/-- The output re-validation block (source lines 324-355), applied to a
non-blank reply. -/
def outputGate : ChatType → String → String
  | .explore, reply =>
    if MEDICAL_REGEX_search reply then reply
    else "⚠️ I only provide medical information. Please rephrase your question."
  | .symptom, reply =>
    if contains_symptom_domain reply then reply
    else if advisoryHit reply then reply
    else "⚠️ I only provide health information. Please ask about symptoms."
  | .food, reply =>
    if contains_food_domain reply then reply
    else if nutritionHit reply then reply
    else "⚠️ I only provide food and nutrition information. Please ask about food items."
  | .qa, reply => reply

/-- `chat_handler`, for a request of the given chat type and prompt, with
`reply` the text the external language-model client would return for the
dispatched prompt (the dispatch itself is the out-of-scope collaborator).
Mirrors the source: strip the prompt, validate it structurally, run the
input domain gate, dispatch, handle a blank reply, then run the output gate. -/
def chat_handler (chat_type : ChatType) (prompt0 reply : String) : Outcome :=
  let rules := CHAT_VALIDATIONS chat_type
  let prompt : String := ⟨pyStrip prompt0.data⟩
  if validate_prompt prompt rules = false then
    Outcome.reject rules.error
  else
    match domainGate chat_type prompt with
    | some msg => Outcome.reject msg
    | none =>
      if pyStrip reply.data = [] then
        Outcome.complete "⚠️ I couldn\x27t generate a response. Please try again with more details."
      else
        Outcome.complete (outputGate chat_type reply)

/-! Helper lemmas. -/

theorem space_not_word {c : Char} (h : isPySpace c = true) : isWordChar c = false := by
  unfold isPySpace at h
  simp only [Bool.or_eq_true, beq_iff_eq] at h
  rcases h with ((((h | h) | h) | h) | h) | h <;> subst h <;> decide

/-- Whether the last character of `b ++ l` (or `b` for empty `l`) counts as a
word character: the state threaded through `countWordsAux`. -/
def prevAfter (b : Bool) : List Char → Bool
  | [] => b
  | c :: rest => prevAfter (isWordChar c) rest

theorem countWordsAux_append (l : List Char) :
    ∀ (b : Bool) (m : List Char),
      countWordsAux b (l ++ m) = countWordsAux b l + countWordsAux (prevAfter b l) m := by
  induction l with
  | nil => intro b m; simp [countWordsAux, prevAfter]
  | cons c rest ih =>
    intro b m
    by_cases hc : isWordChar c <;>
      simp [countWordsAux, prevAfter, hc, ih, Nat.add_assoc]

theorem countWordsAux_nonword (s : List Char) (h : ∀ c ∈ s, isWordChar c = false) :
    ∀ b, countWordsAux b s = 0 := by
  induction s with
  | nil => intro b; rfl
  | cons c rest ih =>
    intro b
    have hc : isWordChar c = false := h c (List.mem_cons_self c rest)
    simp [countWordsAux, hc]
    exact ih (fun d hd => h d (List.mem_cons_of_mem c hd)) false

theorem countWords_dropWhile_space (l : List Char) :
    countWords (l.dropWhile isPySpace) = countWords l := by
  induction l with
  | nil => rfl
  | cons c rest ih =>
    by_cases hc : isPySpace c
    · rw [List.dropWhile_cons_of_pos hc, ih]
      show countWords rest = countWordsAux false (c :: rest)
      simp [countWordsAux, space_not_word hc, countWords]
    · rw [List.dropWhile_cons_of_neg hc]

theorem pyStrip_decomp (l : List Char) :
    l.dropWhile isPySpace =
      pyStrip l ++ ((l.dropWhile isPySpace).reverse.takeWhile isPySpace).reverse := by
  conv_lhs => rw [← (l.dropWhile isPySpace).reverse_reverse,
    ← List.takeWhile_append_dropWhile (p := isPySpace) (l := (l.dropWhile isPySpace).reverse)]
  rw [List.reverse_append]
  rfl

theorem countWords_strip (l : List Char) : countWords (pyStrip l) = countWords l := by
  have hjunk : ∀ c ∈ ((l.dropWhile isPySpace).reverse.takeWhile isPySpace).reverse,
      isWordChar c = false := by
    intro c hc
    rw [List.mem_reverse] at hc
    exact space_not_word (List.mem_takeWhile_imp hc)
  have h1 : countWords (l.dropWhile isPySpace) = countWords (pyStrip l) := by
    rw [pyStrip_decomp l]
    show countWordsAux false _ = countWords (pyStrip l)
    rw [countWordsAux_append, countWordsAux_nonword _ hjunk]
    simp [countWords]
  rw [← h1, countWords_dropWhile_space]

theorem pyStrip_length_le (l : List Char) : (pyStrip l).length ≤ l.length := by
  unfold pyStrip
  rw [List.length_reverse]
  calc ((l.dropWhile isPySpace).reverse.dropWhile isPySpace).length
      ≤ (l.dropWhile isPySpace).reverse.length := (List.dropWhile_sublist _).length_le
    _ = (l.dropWhile isPySpace).length := List.length_reverse _
    _ ≤ l.length := (List.dropWhile_sublist _).length_le

theorem pyStrip_all_space {l : List Char} (h : ∀ c ∈ l, isPySpace c = true) :
    pyStrip l = [] := by
  have h1 : l.dropWhile isPySpace = [] := List.dropWhile_eq_nil_iff.mpr h
  unfold pyStrip
  rw [h1]
  rfl

theorem validate_prompt_strip_false (p : String) (rules : ValidationRule)
    (h : validate_prompt p rules = false) :
    validate_prompt ⟨pyStrip p.data⟩ rules = false := by
  unfold validate_prompt at h ⊢
  by_cases h1 : belowMinLength p.data rules = true
  · have h1s : belowMinLength (pyStrip p.data) rules = true := by
      unfold belowMinLength at h1 ⊢
      cases hml : rules.min_length with
      | none => rw [hml] at h1; exact absurd h1 (by simp)
      | some m =>
        rw [hml] at h1
        simp only [decide_eq_true_eq] at h1 ⊢
        exact Nat.lt_of_le_of_lt (pyStrip_length_le p.data) h1
    simp [h1s]
  · by_cases h2 : belowMinWords p.data rules = true
    · have h2s : belowMinWords (pyStrip p.data) rules = true := by
        unfold belowMinWords at h2 ⊢
        cases hmw : rules.min_words with
        | none => rw [hmw] at h2; exact absurd h2 (by simp)
        | some m =>
          rw [hmw] at h2
          simp only [decide_eq_true_eq] at h2 ⊢
          rw [countWords_strip]
          exact h2
      simp [h2s]
    · rw [if_neg h1, if_neg h2] at h
      exact absurd h (by simp)

theorem symptomLoop_iff (lp : List Char) (ws : List String) :
    ∀ n : Nat, n < 2 →
      (symptomLoop n ws lp = true ↔ 2 ≤ n + ws.countP (fun w => wholeWord w.data lp)) := by
  induction ws with
  | nil =>
    intro n hn
    simp [symptomLoop]
    omega
  | cons w rest ih =>
    intro n hn
    by_cases hw : wholeWord w.data lp
    · rw [List.countP_cons_of_pos _ _ (by simpa using hw)]
      by_cases h2 : n + 1 ≥ 2
      · simp [symptomLoop, hw, h2]
        omega
      · have hn1 : n + 1 < 2 := by omega
        simp only [symptomLoop, hw, if_pos rfl, if_true]
        rw [if_neg h2, ih (n + 1) hn1]
        omega
    · rw [List.countP_cons_of_neg _ _ (by simpa using hw)]
      simp only [symptomLoop, hw, if_false, Bool.false_eq_true]
      exact ih n hn

theorem lowerChar_idem (c : Char) : lowerChar (lowerChar c) = lowerChar c := by
  cases h : lowerPairs.find? (fun p => p.1 == c) with
  | none =>
    have hc : lowerChar c = c := by unfold lowerChar; rw [h]
    rw [hc, hc]
  | some p =>
    have hc : lowerChar c = p.2 := by unfold lowerChar; rw [h]
    rw [hc]
    exact (by decide : ∀ q ∈ lowerPairs, lowerChar q.2 = q.2) p (List.mem_of_find?_eq_some h)

theorem pyLower_idem (l : List Char) : pyLower (pyLower l) = pyLower l := by
  induction l with
  | nil => rfl
  | cons c t ih =>
    show lowerChar (lowerChar c) :: pyLower (pyLower t) = lowerChar c :: pyLower t
    rw [lowerChar_idem, ih]

theorem MEDICAL_REGEX_search_lower (t : String) :
    MEDICAL_REGEX_search ⟨pyLower t.data⟩ = MEDICAL_REGEX_search t := by
  unfold MEDICAL_REGEX_search
  show ALL_SYMPTOM_PATTERNS.any (matchPat (pyLower (pyLower t.data))) = _
  rw [pyLower_idem]

/-! Claim theorems. -/

/-- C4: for every chat type, a prompt that fails the configured structural
rule (minimum character length or minimum word count) makes the handler
return the configured rejection message of that chat type, whatever the reply
oracle would say — it never reaches domain classification or dispatch. -/
theorem structural_reject_for_short_prompt (ct : ChatType) (p r : String)
    (h : validate_prompt p (CHAT_VALIDATIONS ct) = false) :
    chat_handler ct p r = Outcome.reject (CHAT_VALIDATIONS ct).error := by
  have h2 := validate_prompt_strip_false p (CHAT_VALIDATIONS ct) h
  simp [chat_handler, h2]

/-- Witness for C4 at chat type qa, prompt "hi" (2 characters, below the
configured minimum of 5). -/
theorem structural_reject_witness :
    chat_handler .qa "hi" "ok" = Outcome.reject (CHAT_VALIDATIONS .qa).error :=
  structural_reject_for_short_prompt .qa "hi" "ok" (by decide)

/-- C10: a prompt consisting entirely of whitespace is stripped to the empty
string, which fails every configured rule, so every chat type rejects it
structurally with its configured message, and the request is never
dispatched. -/
theorem whitespace_prompt_rejected (ct : ChatType) (p r : String)
    (h : ∀ c ∈ p.data, isPySpace c = true) :
    chat_handler ct p r = Outcome.reject (CHAT_VALIDATIONS ct).error := by
  have hs : pyStrip p.data = [] := pyStrip_all_space h
  have hv : validate_prompt ⟨pyStrip p.data⟩ (CHAT_VALIDATIONS ct) = false := by
    rw [hs]
    cases ct <;> decide
  simp [chat_handler, hv]

/-- Witness for C10 at chat type symptom with a three-space prompt. -/
theorem whitespace_prompt_witness :
    chat_handler .symptom "   " "x" = Outcome.reject (CHAT_VALIDATIONS .symptom).error :=
  whitespace_prompt_rejected .symptom "   " "x" (by decide)

/-- C5: `contains_food_domain` accepts every prompt consisting of exactly one
whitespace-delimited token, via the bare single-token heuristic, regardless
of any lexicon. -/
theorem single_token_prompt_is_food (p : String)
    (h : (pySplit p.data).length = 1) :
    contains_food_domain p = true := by
  simp [contains_food_domain, h]

/-- Witness for C5 at "xyzzy", a token in no lexicon. -/
theorem single_token_witness : contains_food_domain "xyzzy" = true :=
  single_token_prompt_is_food "xyzzy" (by decide)

/-- C9: the domain classifiers and the prompt validator are pure functions of
their text argument in this embedding; evaluating any of them twice on the
same text yields identical results. -/
theorem classifiers_deterministic (t : String) (rules : ValidationRule) :
    contains_symptom_domain t = contains_symptom_domain t ∧
    contains_food_domain t = contains_food_domain t ∧
    MEDICAL_REGEX_search t = MEDICAL_REGEX_search t ∧
    validate_prompt t rules = validate_prompt t rules :=
  ⟨rfl, rfl, rfl, rfl⟩

/-- C8: whenever the combined medical/generic-symptom matcher hits a text (as
the explore input gate uses it), `contains_symptom_domain` of the same text is
also true: its first branch is the same matcher, insensitive to the extra
lowercasing. -/
theorem medical_hit_implies_symptom_domain (t : String)
    (h : MEDICAL_REGEX_search t = true) :
    contains_symptom_domain t = true := by
  simp [contains_symptom_domain, MEDICAL_REGEX_search_lower, h]

/-- Witness for C8 at "fever". -/
theorem medical_hit_witness : contains_symptom_domain "fever" = true :=
  medical_hit_implies_symptom_domain "fever" (by decide)

set_option maxRecDepth 40000 in
/-- C1 (counterexample): for chat type food the configured rule is
min_words = 1, which the one-word prompt "a" satisfies, so the request is NOT
rejected structurally: the food classifier is evaluated (true via the
single-token heuristic) and the request is dispatched, here returning the
reply verbatim — contradicting the claim that the gate rejects it with the
food rejection message before classification. -/
theorem food_prompt_a_dispatches :
    validate_prompt "a" (CHAT_VALIDATIONS .food) = true ∧
    contains_food_domain "a" = true ∧
    chat_handler .food "a" "rice is healthy" = Outcome.complete "rice is healthy" :=
  ⟨by decide, by decide, by decide⟩

set_option maxRecDepth 40000 in
/-- C1 (amended): for chat type food and prompt "a", validation and the input
domain gate both pass, so for every reply of the language-model client the
handler produces a post-dispatch response — never the pre-dispatch food
rejection message. -/
theorem food_prompt_a_always_dispatches (reply : String) :
    ∃ m, chat_handler .food "a" reply = Outcome.complete m := by
  simp only [chat_handler]
  rw [if_neg (by decide : ¬ validate_prompt ⟨pyStrip "a".data⟩ (CHAT_VALIDATIONS .food) = false)]
  rw [(by decide : domainGate .food ⟨pyStrip "a".data⟩ = none)]
  by_cases h : pyStrip reply.data = []
  · exact ⟨_, by rw [if_pos h]⟩
  · exact ⟨_, by rw [if_neg h]⟩

/-- C2 (counterexample): for the input "migraine", exactly one distinct
symptom-word lexicon entry occurs as a whole word (the entry "migraine",
which appears twice in the list), the medical matcher has no hit, no
contextual phrase occurs, and the possessive+body-part conjunction fails —
yet contains_symptom_domain returns true, because the counting loop counts
list entries rather than distinct words. -/
theorem single_distinct_symptom_word_accepted :
    SYMPTOM_WORDS.filter (fun w => wholeWord w.data (pyLower "migraine".data)) =
      ["migraine", "migraine"] ∧
    MEDICAL_REGEX_search ⟨pyLower "migraine".data⟩ = false ∧
    CONTEXTUAL_PHRASES.any
      (fun phrase => isSubstring phrase.data (pyLower "migraine".data)) = false ∧
    (POSSESSIVE_MARKERS.any (fun m => isSubstring m.data (pyLower "migraine".data)) &&
     BODY_PARTS.any (fun part => isSubstring part.data (pyLower "migraine".data))) = false ∧
    contains_symptom_domain "migraine" = true :=
  ⟨by decide, by decide, by decide, by decide, by decide⟩

/-- C2 (amended): the symptom-word path counts matching list ENTRIES
(duplicates included), not distinct words; whenever at most one entry of
SYMPTOM_WORDS matches as a whole word and the other three evidence sources
are silent, contains_symptom_domain returns false. -/
theorem symptom_word_entry_count_path (t : String)
    (h1 : MEDICAL_REGEX_search ⟨pyLower t.data⟩ = false)
    (h2 : SYMPTOM_WORDS.countP (fun w => wholeWord w.data (pyLower t.data)) ≤ 1)
    (h3 : CONTEXTUAL_PHRASES.any
      (fun phrase => isSubstring phrase.data (pyLower t.data)) = false)
    (h4 : (POSSESSIVE_MARKERS.any (fun m => isSubstring m.data (pyLower t.data)) &&
           BODY_PARTS.any (fun part => isSubstring part.data (pyLower t.data))) = false) :
    contains_symptom_domain t = false := by
  have hloop : symptomLoop 0 SYMPTOM_WORDS (pyLower t.data) = false := by
    by_contra hc
    rw [Bool.not_eq_false] at hc
    rw [symptomLoop_iff _ _ 0 (by omega)] at hc
    omega
  simp [contains_symptom_domain, h1, hloop, h3, h4]

/-- Witness for amended C2 at "headache" (a single, unduplicated symptom-word
entry; spec example). -/
theorem symptom_word_entry_count_witness : contains_symptom_domain "headache" = false :=
  symptom_word_entry_count_path "headache" (by decide) (by decide) (by decide) (by decide)

/-- C3 (code evaluated at the failing input): "my head hurts" is accepted,
but "I\x27ve twisted one knee" — where the marker "I\x27ve" co-occurs with
the body part "knee" — is REJECTED: the source tests the mixed-case literal
"I\x27ve" for membership in the lowercased prompt, which can never hold, so
the marker is dead and the claimed case-insensitive possessive+body-part
acceptance fails. -/
theorem possessive_marker_case_mismatch :
    contains_symptom_domain "my head hurts" = true ∧
    isSubstring "I\x27ve".data (pyLower "I\x27ve twisted one knee".data) = false ∧
    BODY_PARTS.any
      (fun part => isSubstring part.data (pyLower "I\x27ve twisted one knee".data)) = true ∧
    contains_symptom_domain "I\x27ve twisted one knee" = false :=
  ⟨by decide, by decide, by decide, by decide⟩

set_option maxRecDepth 40000 in
/-- C6: for chat type explore, when the prompt passes validation and the
input gate and the language-model client returns a non-blank reply with no
medical-matcher hit, the handler returns the templated "only provide medical
information" message, and the reply itself (which necessarily differs from
that message) is never exposed. -/
theorem explore_offdomain_reply_suppressed (p r : String)
    (hv : validate_prompt ⟨pyStrip p.data⟩ (CHAT_VALIDATIONS .explore) = true)
    (hg : MEDICAL_REGEX_search ⟨pyStrip p.data⟩ = true)
    (hr : pyStrip r.data ≠ [])
    (hm : MEDICAL_REGEX_search r = false) :
    chat_handler .explore p r =
      Outcome.complete "⚠️ I only provide medical information. Please rephrase your question." ∧
    r ≠ "⚠️ I only provide medical information. Please rephrase your question." := by
  constructor
  · simp only [chat_handler]
    rw [if_neg (by simp [hv])]
    rw [(by simp [domainGate, hg] :
      domainGate .explore ⟨pyStrip p.data⟩ = none)]
    show (if pyStrip r.data = [] then _ else _) = _
    rw [if_neg hr]
    show Outcome.complete (outputGate .explore r) = _
    simp [outputGate, hm]
  · intro he
    rw [he] at hm
    exact absurd hm (by decide)

set_option maxRecDepth 40000 in
/-- Witness for C6 at prompt "What is hypertension?" and the off-domain
reply "hello there". -/
theorem explore_offdomain_witness :
    chat_handler .explore "What is hypertension?" "hello there" =
      Outcome.complete "⚠️ I only provide medical information. Please rephrase your question." ∧
    "hello there" ≠ "⚠️ I only provide medical information. Please rephrase your question." :=
  explore_offdomain_reply_suppressed "What is hypertension?" "hello there"
    (by decide) (by decide) (by decide) (by decide)

set_option maxRecDepth 40000 in
/-- C7: for chat type symptom, when the prompt passes validation and the
input gate and the reply is non-blank, the handler returns the reply
verbatim exactly when contains_symptom_domain accepts it or it contains an
advisory keyword; and when neither holds, the returned response is the
templated stay-in-domain message in place of the reply. -/
theorem symptom_reply_verbatim_iff (p r : String)
    (hv : validate_prompt ⟨pyStrip p.data⟩ (CHAT_VALIDATIONS .symptom) = true)
    (hg : contains_symptom_domain ⟨pyStrip p.data⟩ = true)
    (hr : pyStrip r.data ≠ []) :
    (chat_handler .symptom p r = Outcome.complete r ↔
      (contains_symptom_domain r = true ∨ advisoryHit r = true)) ∧
    ((contains_symptom_domain r = false ∧ advisoryHit r = false) →
      chat_handler .symptom p r = Outcome.complete
        "⚠️ I only provide health information. Please ask about symptoms.") := by
  have hrun : chat_handler .symptom p r = Outcome.complete (outputGate .symptom r) := by
    simp only [chat_handler]
    rw [if_neg (by simp [hv])]
    rw [(by simp [domainGate, hg] :
      domainGate .symptom ⟨pyStrip p.data⟩ = none)]
    show (if pyStrip r.data = [] then _ else _) = _
    rw [if_neg hr]
  rw [hrun]
  constructor
  · by_cases h1 : contains_symptom_domain r = true
    · simp [outputGate, h1]
    · by_cases h2 : advisoryHit r = true
      · simp [outputGate, h1, h2]
      · have hmsg : outputGate .symptom r =
            "⚠️ I only provide health information. Please ask about symptoms." := by
          simp [outputGate, h1, h2]
        rw [hmsg]
        constructor
        · intro he
          rw [Outcome.complete.injEq] at he
          rw [← he] at h1
          exact absurd (by decide :
            contains_symptom_domain
              "⚠️ I only provide health information. Please ask about symptoms." = true) h1
        · intro hor
          rcases hor with h | h
          · exact absurd h h1
          · exact absurd h h2
  · rintro ⟨h1, h2⟩
    simp [outputGate, h1, h2]

set_option maxRecDepth 40000 in
/-- Witness for C7 at prompt "headache and fever" and reply
"You should see a doctor" (accepted: "doctor" is medical vocabulary). -/
theorem symptom_reply_verbatim_witness :
    (chat_handler .symptom "headache and fever" "You should see a doctor" =
        Outcome.complete "You should see a doctor" ↔
      (contains_symptom_domain "You should see a doctor" = true ∨
       advisoryHit "You should see a doctor" = true)) ∧
    ((contains_symptom_domain "You should see a doctor" = false ∧
      advisoryHit "You should see a doctor" = false) →
      chat_handler .symptom "headache and fever" "You should see a doctor" =
        Outcome.complete
          "⚠️ I only provide health information. Please ask about symptoms.") :=
  symptom_reply_verbatim_iff "headache and fever" "You should see a doctor"
    (by decide) (by decide) (by decide)
